import Mathlib

/-!
Shallow embedding of the OnlyPets application core (src/models.py and
src/controllers.py) and verification of its specified properties.

Conventions used throughout the embedding:
* SQLite and the filesystem are external collaborators; their fault modes
  (connection failure, query error, missing or corrupt file) are injected
  explicitly as data.
* Machine-level concerns that the claims do not touch (widget construction,
  image paths, the exact text of UI strings) are represented by abstract
  constructors; every branch and every state write of the embedded Python
  functions is reproduced.
* A modal dialog's `exec()` call is modelled as returning immediately: the
  events a dialog raises (form submission, login attempt, ...) arrive as
  separate calls to the corresponding controller handler, exactly as they
  arrive as separate signal deliveries in the source.
-/

namespace OnlyPets

/-! ## models.py: table rows and database state -/

/-- Row of the `users` table (id, username UNIQUE, email UNIQUE, password_hash). -/
structure UserRow where
  id : Nat
  username : String
  email : String
  password_hash : String
deriving DecidableEq, Repr

/-- Row of the `pets` table. -/
structure PetRow where
  id : Nat
  name : String
  breed : String
  age : Nat
  description : String
  image_path : String
deriving DecidableEq, Repr

/-- Row of the `services` table.  SQLite REAL is modelled as a rational;
no claim computes with the price. -/
structure ServiceRow where
  id : Nat
  name : String
  description : String
  price : Rat
deriving DecidableEq, Repr

/-- The persistent SQLite database state: one field per table created by
`DatabaseManager.create_tables`.  Wishlist/adoption/booking rows are kept as
(user_id, pet_id)-style tuples in insertion order, mirroring the tables'
rows. -/
structure DbState where
  users : List UserRow
  pets : List PetRow
  services : List ServiceRow
  user_wishlist : List (Nat × Nat)
  user_adoptions : List (Nat × Nat)
  user_bookings : List (Nat × Nat × String)
deriving DecidableEq, Repr

/-- Errors raised by the sqlite3 module.  `integrityError` is the UNIQUE
constraint violation (sqlite3.IntegrityError); `operationalError` stands for
any other connection/query error.  Both are subclasses of sqlite3.Error. -/
inductive SqliteErr
  | integrityError
  | operationalError
deriving DecidableEq, Repr

/-- Fault injection for the external sqlite engine: `connectFails` makes
sqlite3.connect raise, `queryFails` makes cursor.execute raise an
operational error. -/
structure Faults where
  connectFails : Bool
  queryFails : Bool
deriving DecidableEq, Repr

/-! ### passlib argon2 (external collaborator)

The spec treats hashing as an external contract: hash(password) -> stored and
verify(password, stored) -> bool.  `argon2.verify` raises (a ValueError) when
the stored hash is malformed; that exception escapes `verify_user`. -/

/-- External argon2 hash; modelled as a tagged copy so that verification is
decidable. -/
def argon2Hash (password : String) : String := "argon2v19." ++ password

/-- Structural check that the first character list starts the second. -/
def startsWithChars : List Char → List Char → Bool
  | [], _ => true
  | _ :: _, [] => false
  | c :: cs, d :: ds => c = d && startsWithChars cs ds

/-- External argon2 verify; returns an error (raises) when the stored value
is not an argon2 hash. -/
def argon2Verify (password stored : String) : Except Unit Bool :=
  if startsWithChars "argon2v19.".toList stored.toList then
    .ok (stored = argon2Hash password)
  else .error ()

/-! ### Thread-local connections (DatabaseManager.get_conn / close_conn)

`DatabaseManager` keeps one sqlite connection per thread in a
`threading.local`.  The connection map associates a thread id with a flag
telling whether that thread's connection object is still open.  `close_conn`
closes the object but does not delete the thread-local attribute, so the
(closed) entry stays in the map, exactly as in the source. -/

/-- Lookup of a thread's connection entry in the thread-local map. -/
def connLookup (t : Nat) : List (Nat × Bool) → Option Bool
  | [] => none
  | (t', b) :: rest => if t' = t then some b else connLookup t rest

/-- DatabaseManager.get_conn: returns the thread's existing connection object
if the attribute exists (even a closed one), otherwise connects.  On a
connection error it logs and returns None (modelled as `none`) without
setting the attribute. -/
def get_conn (connectFails : Bool) (t : Nat) (cm : List (Nat × Bool)) :
    List (Nat × Bool) × Option Bool :=
  match connLookup t cm with
  | some b => (cm, some b)
  | none => if connectFails then (cm, none) else ((t, true) :: cm, some true)

/-- Marking one map entry closed when it belongs to the given thread. -/
def closeEntry (t : Nat) (p : Nat × Bool) : Nat × Bool :=
  if p.1 = t then (p.1, false) else p

/-- DatabaseManager.close_conn: closes the current thread's connection if the
thread-local attribute exists; the attribute itself is kept. -/
def close_conn (t : Nat) (cm : List (Nat × Bool)) : List (Nat × Bool) :=
  match connLookup t cm with
  | some _ => cm.map (closeEntry t)
  | none => cm

/-! ### _execute_query and the statement-level operations

`_execute_query` starts with `get_conn` (returning None if no connection),
runs the statement, and catches every `sqlite3.Error` internally, logging it
and returning None.  Consequently no sqlite error ever escapes
`_execute_query`; callers receive None instead.  Executing a statement on a
closed connection raises a sqlite3 error, which is likewise caught. -/

/-- Raw cursor.execute of `INSERT INTO users (username, email, password_hash)`:
raises sqlite3.IntegrityError on a UNIQUE violation of username or email,
otherwise inserts the row and returns its rowid. -/
def insert_user_raw (db : DbState) (username email password_hash : String) :
    Except SqliteErr (DbState × Nat) :=
  if db.users.any (fun r => r.username = username || r.email = email) then
    .error .integrityError
  else
    let rid := db.users.length + 1
    .ok ({ db with users := db.users ++ [⟨rid, username, email, password_hash⟩] }, rid)

/-- _execute_query applied to the user INSERT: get_conn, execute, commit;
every sqlite3.Error (including IntegrityError) is caught here and turned
into a None result, leaving the database unchanged. -/
def exec_insert_user (f : Faults) (t : Nat) (cm : List (Nat × Bool)) (db : DbState)
    (username email password_hash : String) :
    List (Nat × Bool) × DbState × Except SqliteErr (Option Nat) :=
  let (cm1, conn) := get_conn f.connectFails t cm
  match conn with
  | none => (cm1, db, .ok none)
  | some false => (cm1, db, .ok none)
  | some true =>
    if f.queryFails then (cm1, db, .ok none)
    else
      match insert_user_raw db username email password_hash with
      | .error _ => (cm1, db, .ok none)
      | .ok (db', rid) => (cm1, db', .ok (some rid))

/-- DatabaseManager.add_user: hashes the password and runs the INSERT through
`_execute_query`, returning True; its `except sqlite3.IntegrityError: return
False` clause can only fire if `_execute_query` re-raised the error, which it
never does. -/
def add_user (f : Faults) (t : Nat) (cm : List (Nat × Bool)) (db : DbState)
    (username email password : String) :
    List (Nat × Bool) × DbState × Except SqliteErr Bool :=
  match exec_insert_user f t cm db username email (argon2Hash password) with
  | (cm', db', .ok _) => (cm', db', .ok true)
  | (cm', db', .error .integrityError) => (cm', db', .ok false)
  | (cm', db', .error e) => (cm', db', .error e)

/-- Raw cursor.execute of `SELECT id, password_hash FROM users WHERE
username = ?` with fetchone. -/
def select_user_by_name_raw (f : Faults) (db : DbState) (username : String) :
    Except SqliteErr (Option UserRow) :=
  if f.queryFails then .error .operationalError
  else .ok (db.users.find? (fun r => r.username = username))

/-- DatabaseManager.verify_user: fetches the row through `_execute_query`
(any sqlite error there yields row = None), then checks
`if row and argon2.verify(password, row['password_hash'])`.  A malformed
stored hash makes argon2.verify raise, and that exception escapes. -/
def verify_user (f : Faults) (t : Nat) (cm : List (Nat × Bool)) (db : DbState)
    (username password : String) :
    List (Nat × Bool) × Except Unit (Option Nat) :=
  let (cm1, conn) := get_conn f.connectFails t cm
  let row : Option UserRow :=
    match conn with
    | none => none
    | some false => none
    | some true =>
      match select_user_by_name_raw f db username with
      | .error _ => none
      | .ok r => r
  match row with
  | some r =>
    match argon2Verify password r.password_hash with
    | .error e => (cm1, .error e)
    | .ok true => (cm1, .ok (some r.id))
    | .ok false => (cm1, .ok none)
  | none => (cm1, .ok none)

/-- Python truthiness of an optional query string: None and the empty string
are falsy (`if query:` in the source). -/
def pyTruthy : Option String → Bool
  | none => false
  | some s => s ≠ ""

/-- SQLite `column LIKE '%q%'`: case-insensitive substring match. -/
def likeContains (s q : String) : Bool :=
  decide (q.toLower.toList <:+: s.toLower.toList)

/-- DatabaseManager.get_pets: SELECT * FROM pets, optionally filtered by
`name LIKE ? OR breed LIKE ?`; a sqlite error yields None. -/
def get_pets (f : Faults) (t : Nat) (cm : List (Nat × Bool)) (db : DbState)
    (query : Option String) :
    List (Nat × Bool) × Option (List PetRow) :=
  let (cm1, conn) := get_conn f.connectFails t cm
  match conn with
  | none => (cm1, none)
  | some false => (cm1, none)
  | some true =>
    if f.queryFails then (cm1, none)
    else
      if pyTruthy query then
        let q := query.getD ""
        (cm1, some (db.pets.filter (fun r => likeContains r.name q || likeContains r.breed q)))
      else (cm1, some db.pets)

/-- DatabaseManager.get_services: SELECT * FROM services, optionally filtered
by `name LIKE ?`; a sqlite error yields None. -/
def get_services (f : Faults) (t : Nat) (cm : List (Nat × Bool)) (db : DbState)
    (query : Option String) :
    List (Nat × Bool) × Option (List ServiceRow) :=
  let (cm1, conn) := get_conn f.connectFails t cm
  match conn with
  | none => (cm1, none)
  | some false => (cm1, none)
  | some true =>
    if f.queryFails then (cm1, none)
    else
      if pyTruthy query then
        (cm1, some (db.services.filter (fun r => likeContains r.name (query.getD ""))))
      else (cm1, some db.services)

/-- DatabaseManager.get_user_by_id (fault-free UI-thread call in
on_login_result): SELECT id, username, email FROM users WHERE id = ?. -/
def get_user_by_id (db : DbState) (user_id : Nat) : Option UserRow :=
  db.users.find? (fun r => r.id = user_id)

/-- Modelled from the spec: `add_to_wishlist(user_id, pet_id) -> void`
(idempotent), listed among the Data Access Collaborator operations as an
ignore-if-duplicate insert into the user's stored wishlist.  The method is
called from src/controllers.py (on_login_result and handle_worker_result)
but its definition is absent from src/models.py. -/
def add_to_wishlist (db : DbState) (user_id pet_id : Nat) : DbState :=
  if (user_id, pet_id) ∈ db.user_wishlist then db
  else { db with user_wishlist := db.user_wishlist ++ [(user_id, pet_id)] }

/-! ## models.py: WishlistManager

The guest wishlist lives in a JSON file outside the database.  The file (an
external collaborator) is in one of three observable conditions: absent
(open raises FileNotFoundError), present but not decodable (json.load raises
json.JSONDecodeError), or present with a decoded list of pet ids. -/

/-- Observable condition of the guest wishlist file. -/
inductive GuestFile
  | missing
  | invalidJson
  | valid (ids : List Nat)
deriving DecidableEq, Repr

/-- WishlistManager.load_wishlist: try open + json.load, returning the empty
list when either FileNotFoundError or json.JSONDecodeError is caught. -/
def load_wishlist : GuestFile → List Nat
  | .missing => []
  | .invalidJson => []
  | .valid ids => ids

/-! ## models.py: DataWorker

A DataWorker thread runs one database operation and puts
`(operation, result)` into the result queue; an exception escaping the
operation is caught and `(operation, exception)` is queued instead; in both
cases the `finally` block closes the thread's connection. -/

/-- The operation kinds dispatched by the controller. -/
inductive Operation
  | get_pets
  | get_services
  | verify_user
  | add_user
deriving DecidableEq, Repr

/-- Typed payload of a successful operation, mirroring what each
DatabaseManager method returns. -/
inductive OpResult
  | pets (rows : Option (List PetRow))
  | services (rows : Option (List ServiceRow))
  | auth (user_id : Option Nat)
  | signup (ok : Bool)
deriving DecidableEq, Repr

/-- What DataWorker.run puts in the queue next to the operation kind: a
normal result, or the captured exception. -/
inductive RunOutcome
  | result (r : OpResult)
  | exn
deriving DecidableEq, Repr

/-- Arguments of a worker run (the keyword arguments of the source). -/
structure RunArgs where
  username : String
  password : String
  email : String
  query : Option String
deriving DecidableEq, Repr

/-- DataWorker.run: executes the requested operation; the result (or the
caught exception) is queued tagged with the operation kind, and the
`finally` clause closes this thread's connection on every exit path. -/
def dataWorkerRun (f : Faults) (t : Nat) (op : Operation) (a : RunArgs)
    (cm : List (Nat × Bool)) (db : DbState) :
    List (Nat × Bool) × DbState × (Operation × RunOutcome) :=
  let body : List (Nat × Bool) × DbState × Except Unit OpResult :=
    match op with
    | .get_pets =>
      let (cm', rows) := get_pets f t cm db a.query
      (cm', db, .ok (.pets rows))
    | .get_services =>
      let (cm', rows) := get_services f t cm db a.query
      (cm', db, .ok (.services rows))
    | .verify_user =>
      let (cm', r) := verify_user f t cm db a.username a.password
      (cm', db, r.map .auth)
    | .add_user =>
      match add_user f t cm db a.username a.email a.password with
      | (cm', db', .ok b) => (cm', db', .ok (.signup b))
      | (cm', db', .error _) => (cm', db', .error ())
  match body with
  | (cm', db', .ok r) => (close_conn t cm', db', (op, .result r))
  | (cm', db', .error _) => (close_conn t cm', db', (op, .exn))

/-! ## controllers.py: AppController state -/

/-- The STATES table of AppController. -/
inductive AppState
  | guest_home
  | guest_pet_list
  | guest_service_list
  | pet_details
  | service_details
  | login
  | signup
  | adoption_form
  | booking_schedule
  | payment
  | confirmation
  | user_dashboard
deriving DecidableEq, Repr

/-- The active flow ('adoption' or 'booking', or None). -/
inductive FlowKind
  | adoption
  | booking
deriving DecidableEq, Repr

/-- The values assigned to self.pending_action in the source
('adopt', 'book', 'sync_wishlist', or None). -/
inductive PendingAction
  | adopt
  | book
  | sync_wishlist
deriving DecidableEq, Repr

/-- The mutable AppController state (Session and Flow Context).  The item
under consideration is identified by its catalog id. -/
structure Controller where
  user_id : Option Nat
  username : String
  current_state : AppState
  current_flow : Option FlowKind
  current_item : Option Nat
  pending_action : Option PendingAction
deriving DecidableEq, Repr

/-- Messages the controller surfaces through the presentation layer
(QMessageBox popups and inline error labels), abstracted by kind. -/
inductive UiMsg
  | welcome (name : String)
  | wishlistSynced
  | loggedOut
  | dbError
  | loginErrorInvalid
  | signupErrorDuplicate
  | accountCreated
deriving DecidableEq, Repr

/-- The world visible to UI-thread controller handlers: the database (via
fault-free same-thread calls) and the guest wishlist file. -/
structure World where
  db : DbState
  guestFile : GuestFile
deriving DecidableEq, Repr

/-- AppController.show_adoption_form: sets the state to adoption_form and
opens the modal AdoptionFormDialog (whose submission arrives as a separate
event). -/
def show_adoption_form (c : Controller) : Controller :=
  { c with current_state := .adoption_form }

/-- AppController.show_schedule_dialog: sets the state to booking_schedule
and opens the modal ScheduleDialog. -/
def show_schedule_dialog (c : Controller) : Controller :=
  { c with current_state := .booking_schedule }

/-- AppController.on_login_result.  On success: set user_id and username,
welcome popup, then redirect to the pending action if one is set (without
clearing it), then, if the guest wishlist file exists, set pending_action to
sync_wishlist and, when the loaded list is nonempty, merge it into the
user's stored wishlist via add_to_wishlist and delete the file.  On failure:
only the inline login error label changes. -/
def on_login_result (c : Controller) (w : World) (user_id : Option Nat) :
    Controller × World × List UiMsg :=
  match user_id with
  | some u =>
    let name := ((get_user_by_id w.db u).map (fun r => r.username)).getD ""
    let c1 : Controller := { c with user_id := some u, username := name }
    let c2 :=
      if c1.pending_action = some .adopt then show_adoption_form c1
      else if c1.pending_action = some .book then show_schedule_dialog c1
      else c1
    if w.guestFile ≠ .missing then
      let c3 : Controller := { c2 with pending_action := some .sync_wishlist }
      let gw := load_wishlist w.guestFile
      if gw ≠ [] then
        let db' := gw.foldl (fun d pid => add_to_wishlist d u pid) w.db
        (c3, { db := db', guestFile := .missing }, [UiMsg.welcome name, UiMsg.wishlistSynced])
      else (c3, w, [UiMsg.welcome name])
    else (c2, w, [UiMsg.welcome name])
  | none => (c, w, [UiMsg.loginErrorInvalid])

/-- AppController.on_signup_result: a popup and a tab switch on success, an
inline duplicate error on failure; controller state is unchanged. -/
def on_signup_result (c : Controller) (w : World) (success : Bool) :
    Controller × World × List UiMsg :=
  if success then (c, w, [UiMsg.accountCreated]) else (c, w, [UiMsg.signupErrorDuplicate])

/-- AppController.handle_worker_result: routes a queued (operation, result)
pair.  List results go to the presentation layer; auth/signup results go to
their handlers.  The 'wishlist_result' branch of the source is dead code:
DataWorker.run never produces that result type. -/
def handle_worker_result (c : Controller) (w : World) (m : Operation × OpResult) :
    Controller × World × List UiMsg :=
  match m with
  | (.verify_user, .auth uid) => on_login_result c w uid
  | (.add_user, .signup ok) => on_signup_result c w ok
  | _ => (c, w, [])

/-- AppController.handle_worker_error: logs the tagged error and shows the
generic database-error popup; no state field is written. -/
def handle_worker_error (c : Controller) : Controller × List UiMsg :=
  (c, [UiMsg.dbError])

/-- AppController.logout: clears the Session (user_id, username), resets the
navigation state, flow and item, and shows the home view;
self.pending_action is not written. -/
def logout (c : Controller) : Controller × List UiMsg :=
  ({ c with user_id := none, username := "Guest", current_state := .guest_home,
            current_flow := none, current_item := none }, [UiMsg.loggedOut])

/-- AppController.on_adopt_click: if unauthenticated, records
pending_action = adopt and opens the auth dialog; otherwise proceeds to the
adoption form. -/
def on_adopt_click (c : Controller) : Controller :=
  if c.user_id = none then { c with pending_action := some .adopt }
  else show_adoption_form c

/-- AppController.on_book_click: if unauthenticated, records
pending_action = book and opens the auth dialog; otherwise proceeds to the
schedule dialog. -/
def on_book_click (c : Controller) : Controller :=
  if c.user_id = none then { c with pending_action := some .book }
  else show_schedule_dialog c

/-- AppController.reset_to_home: resets navigation state, flow and item;
self.pending_action and the Session are not written. -/
def reset_to_home (c : Controller) : Controller :=
  { c with current_state := .guest_home, current_flow := none, current_item := none }

/-- AppController.show_confirmation_dialog: enters the confirmation state,
shows the modal ConfirmationDialog, and on its dismissal runs
reset_to_home. -/
def show_confirmation_dialog (c : Controller) : Controller :=
  reset_to_home { c with current_state := .confirmation }

/-! ## controllers.py: the async dispatch slot

AppController keeps a single worker slot (self.data_worker).
start_worker_thread returns immediately when a worker is running; worker
completion applies its result on the UI thread and then clears the slot
(on_worker_finished).  Result application and the finished signal are
delivered in order on the UI thread, so a worker is modelled as running
until its completion event is processed. -/

/-- An asynchronous request: its operation kind plus a correlation id
distinguishing distinct submissions. -/
structure Request where
  op : Operation
  rid : Nat
deriving DecidableEq, Repr

/-- The dispatch state: the single worker slot and the most recently applied
result. -/
structure Dispatcher where
  data_worker : Option Request
  applied : Option Request
deriving DecidableEq, Repr

/-- AppController.start_worker_thread: returns (unchanged, nothing spawned)
while a worker is running, otherwise fills the slot with a freshly spawned
worker. -/
def start_worker_thread (d : Dispatcher) (r : Request) : Dispatcher × Option Request :=
  match d.data_worker with
  | some _ => (d, none)
  | none => ({ d with data_worker := some r }, some r)

/-- Completion of the running worker: handle_worker_result applies its
result, then on_worker_finished clears the slot. -/
def worker_completes (d : Dispatcher) : Dispatcher :=
  match d.data_worker with
  | some r => { data_worker := none, applied := some r }
  | none => d

/-- UI-thread events touching the dispatch slot. -/
inductive DispatchEvent
  | submit (r : Request)
  | complete
deriving DecidableEq, Repr

/-- One UI-thread dispatch step. -/
def dispatchStep (d : Dispatcher) : DispatchEvent → Dispatcher
  | .submit r => (start_worker_thread d r).1
  | .complete => worker_completes d

/-- A whole UI-thread event trace. -/
def dispatchRun (d : Dispatcher) (es : List DispatchEvent) : Dispatcher :=
  es.foldl dispatchStep d

/-- The requests currently in flight (the occupied slot, if any). -/
def inFlight (d : Dispatcher) : List Request :=
  d.data_worker.toList

/-- Number of in-flight requests of one operation kind. -/
def inFlightOfKind (d : Dispatcher) (k : Operation) : Nat :=
  (inFlight d).countP (fun r => r.op = k)

/-- The requests a trace completes, in completion order. -/
def completedList (d : Dispatcher) : List DispatchEvent → List Request
  | [] => []
  | .submit r :: es => completedList (dispatchStep d (.submit r)) es
  | .complete :: es =>
    (match d.data_worker with
     | some r => [r]
     | none => []) ++ completedList (dispatchStep d .complete) es

/-! ## Concrete fixtures used to evaluate the embedding -/

/-- Database holding one user "alice" with a well-formed stored hash. -/
def dbAlice : DbState :=
  ⟨[⟨1, "alice", "alice@example.com", argon2Hash "pw123"⟩], [], [], [], [], []⟩

/-- Database holding one user whose stored password hash is malformed, which
makes argon2.verify raise. -/
def dbMallory : DbState :=
  ⟨[⟨1, "mallory", "mallory@example.com", "plaintext"⟩], [], [], [], [], []⟩

/-- Database holding user 7 ("bob") whose stored wishlist is [(7, 2)]. -/
def dbBobWish : DbState :=
  ⟨[⟨7, "bob", "bob@example.com", argon2Hash "pw"⟩], [], [], [(7, 2)], [], []⟩

/-- Freshly started controller state: anonymous guest at home. -/
def cGuest : Controller := ⟨none, "Guest", .guest_home, none, none, none⟩

/-- Guest looking at pet 3 who clicked Adopt: pending_action = adopt. -/
def cGuestAdopt : Controller := ⟨none, "Guest", .pet_details, some .adoption, some 3, some .adopt⟩

/-- Guest looking at service 2 who clicked Book: pending_action = book. -/
def cGuestBook : Controller := ⟨none, "Guest", .service_details, some .booking, some 2, some .book⟩

/-- Authenticated user still carrying pending_action = adopt (reachable:
on_login_result does not clear a consumed pending action). -/
def cAuthPending : Controller := ⟨some 1, "alice", .adoption_form, some .adoption, some 3, some .adopt⟩

/-- Authenticated user at the confirmation state, still carrying
pending_action = sync_wishlist (reachable: on_login_result leaves it set). -/
def cConfirm : Controller := ⟨some 1, "alice", .confirmation, some .adoption, some 3, some .sync_wishlist⟩

/-- Worker keyword arguments for a login attempt by alice. -/
def argsAlice : RunArgs := ⟨"alice", "pw123", "", none⟩

/-- Worker keyword arguments for a login attempt by mallory. -/
def argsMallory : RunArgs := ⟨"mallory", "pw123", "", none⟩

/-- Dispatcher whose single slot is occupied by a running get_pets worker. -/
def dispatcherBusy : Dispatcher := ⟨some ⟨.get_pets, 0⟩, none⟩

/-- Event trace: submit a second get_pets request, then the running worker
completes. -/
def traceSubmitComplete : List DispatchEvent := [.submit ⟨.get_pets, 1⟩, .complete]

/-! ## Theorems -/

/-- C1: the claim states that pending_action is set only while the session is
unauthenticated and is cleared exactly once, consumed by a successful
authentication or removed by cancellation, and is never left set nor newly
set after authentication succeeds.  The code violates this: evaluating
on_login_result on a guest whose pending_action is adopt and whose login
succeeds (user 1, no guest wishlist file) resumes the adoption flow but
leaves pending_action = adopt set after authentication; and evaluating it on
a guest with no pending action but an existing guest wishlist file sets
pending_action = sync_wishlist while the session is authenticated, and no
reachable handler ever clears it (the clearing branch of
handle_worker_result is dead code). -/
theorem c1_pending_action_survives_successful_login :
    ((on_login_result cGuestAdopt ⟨dbAlice, .missing⟩ (some 1)).1.user_id = some 1 ∧
     (on_login_result cGuestAdopt ⟨dbAlice, .missing⟩ (some 1)).1.current_state =
       AppState.adoption_form ∧
     (on_login_result cGuestAdopt ⟨dbAlice, .missing⟩ (some 1)).1.pending_action =
       some PendingAction.adopt) ∧
    ((on_login_result cGuest ⟨dbAlice, .valid [2]⟩ (some 1)).1.user_id = some 1 ∧
     (on_login_result cGuest ⟨dbAlice, .valid [2]⟩ (some 1)).1.pending_action =
       some PendingAction.sync_wishlist) := by
  decide

/-- C2: counterexample.  The claim states that an Adopt/Book click while a
pending_action already exists preserves the existing pending_action
(first-wins).  Evaluating on_adopt_click on an unauthenticated controller
whose pending_action is book shows the click overwrites it with adopt. -/
theorem c2_adopt_click_overwrites_existing_pending_action :
    (on_adopt_click cGuestBook).pending_action ≠ cGuestBook.pending_action ∧
    cGuestBook.pending_action = some PendingAction.book ∧
    (on_adopt_click cGuestBook).pending_action = some PendingAction.adopt := by
  decide

/-- C2 (amended): an Adopt or Book click while unauthenticated always sets
pending_action to the kind of the later click, overwriting any existing
pending_action (last-wins, not first-wins). -/
theorem c2_unauthenticated_click_sets_pending_last_wins :
    ∀ c : Controller, c.user_id = none →
      (on_adopt_click c).pending_action = some PendingAction.adopt ∧
      (on_book_click c).pending_action = some PendingAction.book := by
  intro c h
  constructor <;> simp [on_adopt_click, on_book_click, h]

/-- C2 (amended) witness at the concrete guest-with-pending-book state. -/
theorem c2_last_wins_witness :
    (on_adopt_click cGuestBook).pending_action = some PendingAction.adopt ∧
    (on_book_click cGuestBook).pending_action = some PendingAction.book :=
  c2_unauthenticated_click_sets_pending_last_wins cGuestBook rfl

/-- C3: the claim states that logout clears pending_action, clears the flow
item, and returns the session to the anonymous Guest state.  The code resets
the Session, flow and item but never writes pending_action: evaluating
logout on an authenticated controller carrying pending_action = adopt leaves
that pending action set. -/
theorem c3_logout_leaves_pending_action_set :
    (logout cAuthPending).1.user_id = none ∧
    (logout cAuthPending).1.username = "Guest" ∧
    (logout cAuthPending).1.current_item = none ∧
    (logout cAuthPending).1.current_flow = none ∧
    (logout cAuthPending).1.pending_action = some PendingAction.adopt := by
  decide

/-- Helper: with a nonempty decoded guest wishlist, the world produced by a
successful on_login_result is the merged database together with the deleted
guest file. -/
theorem on_login_result_world_merge (c : Controller) (db : DbState) (u : Nat)
    (ids : List Nat) (h : ids ≠ []) :
    (on_login_result c ⟨db, .valid ids⟩ (some u)).2.1 =
      ⟨ids.foldl (fun d pid => add_to_wishlist d u pid) db, .missing⟩ := by
  unfold on_login_result
  simp [load_wishlist, h]

/-- Helper: folding the idempotent add_to_wishlist insert over [p1, p2, p1]
starting from a stored wishlist [(u, p2)] adds exactly one (u, p1) row. -/
theorem wishlist_merge_fold (db : DbState) (u p1 p2 : Nat)
    (h : db.user_wishlist = [(u, p2)]) (hne : p1 ≠ p2) :
    [p1, p2, p1].foldl (fun d pid => add_to_wishlist d u pid) db =
      { db with user_wishlist := [(u, p2), (u, p1)] } := by
  simp [add_to_wishlist, h, hne]

/-- C4: merging a guest wishlist [p1, p2, p1] into an authenticated user
whose stored wishlist is [(u, p2)] yields exactly the rows (u, p2), (u, p1):
as a set of pet ids this is the two-element set containing p1 and p2, with no
duplicate rows, and the guest wishlist file is deleted after the merge.  The
insert used is the spec-modelled idempotent add_to_wishlist. -/
theorem c4_guest_wishlist_merge_set_semantics :
    ∀ (c : Controller) (db : DbState) (u p1 p2 : Nat),
      db.user_wishlist = [(u, p2)] → p1 ≠ p2 →
      (on_login_result c ⟨db, .valid [p1, p2, p1]⟩ (some u)).2.1.db.user_wishlist =
        [(u, p2), (u, p1)] ∧
      ((on_login_result c ⟨db, .valid [p1, p2, p1]⟩ (some u)).2.1.db.user_wishlist.map
          Prod.snd).toFinset = ({p1, p2} : Finset Nat) ∧
      ((on_login_result c ⟨db, .valid [p1, p2, p1]⟩ (some u)).2.1.db.user_wishlist).Nodup ∧
      (on_login_result c ⟨db, .valid [p1, p2, p1]⟩ (some u)).2.1.guestFile = .missing := by
  intro c db u p1 p2 h hne
  have hw := on_login_result_world_merge c db u [p1, p2, p1] (by simp)
  rw [hw, wishlist_merge_fold db u p1 p2 h hne]
  refine ⟨rfl, ?_, ?_, rfl⟩
  · simp [Finset.pair_comm p1 p2]
  · simp [Ne.symm hne]

/-- C4 witness: user 7 with stored wishlist [(7, 2)] merging the guest file
[1, 2, 1]. -/
theorem c4_guest_wishlist_merge_witness :
    (on_login_result cGuest ⟨dbBobWish, .valid [1, 2, 1]⟩ (some 7)).2.1.db.user_wishlist =
      [(7, 2), (7, 1)] ∧
    ((on_login_result cGuest ⟨dbBobWish, .valid [1, 2, 1]⟩ (some 7)).2.1.db.user_wishlist.map
        Prod.snd).toFinset = ({1, 2} : Finset Nat) ∧
    ((on_login_result cGuest ⟨dbBobWish, .valid [1, 2, 1]⟩ (some 7)).2.1.db.user_wishlist).Nodup ∧
    (on_login_result cGuest ⟨dbBobWish, .valid [1, 2, 1]⟩ (some 7)).2.1.guestFile = .missing :=
  c4_guest_wishlist_merge_set_semantics cGuest dbBobWish 7 1 2 rfl (by decide)

/-- C5: the claim states that add_user returns False when the username or
email duplicates an existing user.  In the code, `_execute_query` catches
every sqlite3.Error — including the IntegrityError the duplicate INSERT
raises (third conjunct) — and returns None instead of re-raising, so
add_user's own `except sqlite3.IntegrityError: return False` clause is dead
and add_user returns True on a duplicate username while inserting nothing. -/
theorem c5_add_user_returns_true_on_duplicate :
    (add_user ⟨false, false⟩ 9 [] dbAlice "alice" "other@example.com" "hunter2").2.2 =
      .ok true ∧
    (add_user ⟨false, false⟩ 9 [] dbAlice "alice" "other@example.com" "hunter2").2.1.users =
      dbAlice.users ∧
    insert_user_raw dbAlice "alice" "other@example.com" (argon2Hash "hunter2") =
      .error .integrityError := by
  exact ⟨rfl, rfl, rfl⟩

/-- Helper: under an injected query error, verify_user returns the normal
None result (the sqlite error is caught inside `_execute_query`), never an
exception. -/
theorem verify_user_queryFails (f : Faults) (t : Nat) (cm : List (Nat × Bool))
    (db : DbState) (un pw : String) (h : f.queryFails = true) :
    (verify_user f t cm db un pw).2 = .ok none := by
  unfold verify_user
  cases hcl : connLookup t cm with
  | some b => cases b <;> simp [get_conn, hcl, select_user_by_name_raw, h]
  | none => cases hcf : f.connectFails <;>
      simp [get_conn, hcl, hcf, select_user_by_name_raw, h]

/-- Helper: what DataWorker.run queues for a verify_user operation is
determined by the Except value verify_user produces: a tagged normal result
for ok, the tagged captured exception otherwise. -/
theorem dataWorkerRun_verify_queued (f : Faults) (t : Nat) (a : RunArgs)
    (cm : List (Nat × Bool)) (db : DbState) :
    (dataWorkerRun f t .verify_user a cm db).2.2 =
      match (verify_user f t cm db a.username a.password).2 with
      | .ok r => (Operation.verify_user, RunOutcome.result (.auth r))
      | .error _ => (Operation.verify_user, RunOutcome.exn) := by
  rcases hv : verify_user f t cm db a.username a.password with ⟨cm', r⟩
  cases r with
  | ok v => simp [dataWorkerRun, hv, Except.map]
  | error e => simp [dataWorkerRun, hv, Except.map]

/-- C6: counterexample.  The claim states that a verify_user connection or
query error is delivered as an error result tagged with its operation kind
and surfaced as the generic data-access error.  Under an injected query
error the worker instead queues the normal result (verify_user, auth None) —
not the tagged exception — and the controller surfaces the inline
invalid-credentials message, not the generic database-error popup. -/
theorem c6_query_error_surfaced_as_invalid_credentials :
    (dataWorkerRun ⟨false, true⟩ 9 .verify_user argsAlice [] dbAlice).2.2 =
      (Operation.verify_user, RunOutcome.result (OpResult.auth none)) ∧
    (dataWorkerRun ⟨false, true⟩ 9 .verify_user argsAlice [] dbAlice).2.2 ≠
      (Operation.verify_user, RunOutcome.exn) ∧
    UiMsg.dbError ∉ (on_login_result cGuest ⟨dbAlice, .missing⟩ none).2.2 ∧
    (on_login_result cGuest ⟨dbAlice, .missing⟩ none).2.2 = [UiMsg.loginErrorInvalid] := by
  exact ⟨rfl, by decide, by decide, rfl⟩

/-- C6 (amended): a sqlite connection/query error inside verify_user is
caught by `_execute_query` and flows through the normal result path as
(verify_user, auth None), which the controller surfaces as an inline
invalid-credentials failure with the Session left unauthenticated, the
pending_action and the whole controller state untouched; only an exception
that escapes the operation (e.g. argon2.verify on a malformed stored hash)
is delivered as an error tagged with its operation kind, and the error
handler surfaces the generic data-access error without touching any state. -/
theorem c6_error_delivery_and_state_preservation :
    ∀ (f : Faults) (t : Nat) (cm : List (Nat × Bool)) (db : DbState)
      (c : Controller) (w : World) (a : RunArgs) (row : UserRow),
      (f.queryFails = true →
        (dataWorkerRun f t .verify_user a cm db).2.2 =
          (Operation.verify_user, RunOutcome.result (OpResult.auth none))) ∧
      on_login_result c w none = (c, w, [UiMsg.loginErrorInvalid]) ∧
      handle_worker_error c = (c, [UiMsg.dbError]) ∧
      (f.connectFails = false → f.queryFails = false → connLookup t cm = none →
        db.users.find? (fun r => r.username = a.username) = some row →
        argon2Verify a.password row.password_hash = .error () →
        (dataWorkerRun f t .verify_user a cm db).2.2 =
          (Operation.verify_user, RunOutcome.exn)) := by
  intro f t cm db c w a row
  refine ⟨?_, rfl, rfl, ?_⟩
  · intro hq
    rw [dataWorkerRun_verify_queued,
        verify_user_queryFails f t cm db a.username a.password hq]
  · intro hcf hq hcl hfind hverify
    rw [dataWorkerRun_verify_queued]
    unfold verify_user
    simp [get_conn, hcl, hcf, select_user_by_name_raw, hq, hfind, hverify]

/-- C6 (amended) witness: the query-error path at alice's database, the
failed-login and error-handler state preservation, and the escaping
exception path at mallory's malformed stored hash. -/
theorem c6_error_delivery_witness :
    (dataWorkerRun ⟨false, true⟩ 9 .verify_user argsAlice [] dbAlice).2.2 =
      (Operation.verify_user, RunOutcome.result (OpResult.auth none)) ∧
    on_login_result cGuest ⟨dbAlice, .missing⟩ none =
      (cGuest, ⟨dbAlice, .missing⟩, [UiMsg.loginErrorInvalid]) ∧
    handle_worker_error cGuest = (cGuest, [UiMsg.dbError]) ∧
    (dataWorkerRun ⟨false, false⟩ 9 .verify_user argsMallory [] dbMallory).2.2 =
      (Operation.verify_user, RunOutcome.exn) := by
  refine ⟨?_, ?_, ?_, ?_⟩
  · exact (c6_error_delivery_and_state_preservation ⟨false, true⟩ 9 [] dbAlice cGuest
      ⟨dbAlice, .missing⟩ argsAlice ⟨1, "mallory", "mallory@example.com", "plaintext"⟩).1 rfl
  · exact (c6_error_delivery_and_state_preservation ⟨false, true⟩ 9 [] dbAlice cGuest
      ⟨dbAlice, .missing⟩ argsAlice ⟨1, "mallory", "mallory@example.com", "plaintext"⟩).2.1
  · exact (c6_error_delivery_and_state_preservation ⟨false, true⟩ 9 [] dbAlice cGuest
      ⟨dbAlice, .missing⟩ argsAlice ⟨1, "mallory", "mallory@example.com", "plaintext"⟩).2.2.1
  · exact (c6_error_delivery_and_state_preservation ⟨false, false⟩ 9 [] dbMallory cGuest
      ⟨dbAlice, .missing⟩ argsMallory
      ⟨1, "mallory", "mallory@example.com", "plaintext"⟩).2.2.2 rfl rfl rfl rfl rfl

/-- C8: counterexample.  The claim states that dismissing the Confirmation
dialog clears the Flow Context entirely, pending_action included.
reset_to_home (the dismiss handler) applied to a confirmation-state
controller still carrying pending_action = sync_wishlist leaves that
pending_action set. -/
theorem c8_dismiss_leaves_pending_action :
    cConfirm.current_state = AppState.confirmation ∧
    (reset_to_home cConfirm).pending_action = some PendingAction.sync_wishlist ∧
    (reset_to_home cConfirm).pending_action ≠ none := by
  decide

/-- C8 (amended): dismissing the Confirmation dialog transitions to Home
clearing flow_kind and item; pending_action is left unchanged (not cleared),
and nothing else of the Session (user_id, username) is changed. -/
theorem c8_reset_to_home_effect :
    ∀ c : Controller,
      (reset_to_home c).current_state = AppState.guest_home ∧
      (reset_to_home c).current_flow = none ∧
      (reset_to_home c).current_item = none ∧
      (reset_to_home c).pending_action = c.pending_action ∧
      (reset_to_home c).user_id = c.user_id ∧
      (reset_to_home c).username = c.username := by
  intro c
  exact ⟨rfl, rfl, rfl, rfl, rfl, rfl⟩

/-- Helper: the single worker slot holds at most one in-flight request of
any operation kind. -/
theorem inFlightOfKind_le_one (d : Dispatcher) (k : Operation) :
    inFlightOfKind d k ≤ 1 := by
  have h1 : inFlightOfKind d k ≤ (inFlight d).length :=
    List.countP_le_length _
  have h2 : (inFlight d).length ≤ 1 := by
    unfold inFlight
    cases d.data_worker <;> simp
  exact h1.trans h2

/-- Helper: a trace that completes nothing leaves the applied result
unchanged. -/
theorem dispatch_applied_of_no_completions :
    ∀ (es : List DispatchEvent) (d : Dispatcher),
      completedList d es = [] → (dispatchRun d es).applied = d.applied := by
  intro es
  induction es with
  | nil => intro d _; rfl
  | cons e es ih =>
    intro d h
    cases e with
    | submit r =>
      have h' : completedList (dispatchStep d (.submit r)) es = [] := h
      have happ : (dispatchStep d (.submit r)).applied = d.applied := by
        cases hw : d.data_worker <;> simp [dispatchStep, start_worker_thread, hw]
      have := ih _ h'
      rw [happ] at this
      simpa [dispatchRun] using this
    | complete =>
      cases hw : d.data_worker with
      | some r => simp [completedList, hw] at h
      | none =>
        have hd : dispatchStep d .complete = d := by
          simp [dispatchStep, worker_completes, hw]
        have h' : completedList (dispatchStep d .complete) es = [] := by
          simpa [completedList, hw] using h
        have := ih _ h'
        rw [hd] at this
        simpa [dispatchRun, hd] using this

/-- Helper: whenever a trace completes at least one request, the applied
result after the trace is that of the most recently completed request. -/
theorem dispatch_applied_eq_lastCompleted :
    ∀ (es : List DispatchEvent) (d : Dispatcher),
      completedList d es ≠ [] →
      (dispatchRun d es).applied = (completedList d es).getLast? := by
  intro es
  induction es with
  | nil => intro d h; simp [completedList] at h
  | cons e es ih =>
    intro d h
    cases e with
    | submit r =>
      have hrw : completedList d (.submit r :: es) =
          completedList (dispatchStep d (.submit r)) es := rfl
      rw [hrw] at h ⊢
      simpa [dispatchRun] using ih _ h
    | complete =>
      cases hw : d.data_worker with
      | none =>
        have hd : dispatchStep d .complete = d := by
          simp [dispatchStep, worker_completes, hw]
        have hrw : completedList d (.complete :: es) = completedList d es := by
          simp [completedList, hw, hd]
        rw [hrw] at h ⊢
        have := ih d h
        simpa [dispatchRun, hd] using this
      | some r =>
        have hd : dispatchStep d .complete = (⟨none, some r⟩ : Dispatcher) := by
          simp [dispatchStep, worker_completes, hw]
        have hrw : completedList d (.complete :: es) =
            r :: completedList (⟨none, some r⟩ : Dispatcher) es := by
          simp [completedList, hw, hd]
        have hrun : dispatchRun d (.complete :: es) =
            dispatchRun (⟨none, some r⟩ : Dispatcher) es := by
          simp [dispatchRun, hd]
        rw [hrw, hrun]
        by_cases hrest : completedList (⟨none, some r⟩ : Dispatcher) es = []
        · rw [hrest, dispatch_applied_of_no_completions es _ hrest]
          rfl
        · rcases List.exists_cons_of_ne_nil hrest with ⟨x, xs, hx⟩
          rw [hx, List.getLast?_cons_cons, ← hx, ih _ hrest]

/-- C7: in the busy-drop variant, submitting a request while the single
worker slot is occupied is cheaply ignored (the dispatcher state is
unchanged and no worker is spawned), at most one request per operation kind
is ever in flight along any event trace, and the result applied after any
trace is that of the most recently completed request. -/
theorem c7_single_worker_slot_busy_drop :
    ∀ (d : Dispatcher) (r : Request) (es : List DispatchEvent) (k : Operation),
      (d.data_worker.isSome = true → start_worker_thread d r = (d, none)) ∧
      inFlightOfKind (dispatchRun d es) k ≤ 1 ∧
      (completedList d es ≠ [] →
        (dispatchRun d es).applied = (completedList d es).getLast?) := by
  intro d r es k
  refine ⟨?_, inFlightOfKind_le_one _ _, fun h => dispatch_applied_eq_lastCompleted es d h⟩
  intro h
  cases hw : d.data_worker with
  | none => rw [hw] at h; cases h
  | some q => simp [start_worker_thread, hw]

/-- C7 witness: a busy dispatcher, a duplicate get_pets submission, and the
trace that drops the duplicate and completes the running worker. -/
theorem c7_single_worker_slot_witness :
    start_worker_thread dispatcherBusy ⟨.get_pets, 1⟩ = (dispatcherBusy, none) ∧
    inFlightOfKind (dispatchRun dispatcherBusy traceSubmitComplete) .get_pets ≤ 1 ∧
    (dispatchRun dispatcherBusy traceSubmitComplete).applied =
      (completedList dispatcherBusy traceSubmitComplete).getLast? := by
  refine ⟨?_, ?_, ?_⟩
  · exact (c7_single_worker_slot_busy_drop dispatcherBusy ⟨.get_pets, 1⟩
      traceSubmitComplete .get_pets).1 rfl
  · exact (c7_single_worker_slot_busy_drop dispatcherBusy ⟨.get_pets, 1⟩
      traceSubmitComplete .get_pets).2.1
  · exact (c7_single_worker_slot_busy_drop dispatcherBusy ⟨.get_pets, 1⟩
      traceSubmitComplete .get_pets).2.2 (by decide)

/-- Helper: the closing map turns the looked-up thread's entry to closed. -/
theorem connLookup_map_close (t : Nat) :
    ∀ cm : List (Nat × Bool),
      connLookup t (cm.map (closeEntry t)) =
        (connLookup t cm).map (fun _ => false) := by
  intro cm
  induction cm with
  | nil => rfl
  | cons a rest ih =>
    rcases a with ⟨s, b⟩
    simp only [List.map_cons]
    by_cases hs : s = t
    · subst hs
      have h1 : closeEntry s (s, b) = (s, false) := by simp [closeEntry]
      rw [h1]
      simp [connLookup]
    · have h1 : closeEntry t (s, b) = (s, b) := by simp [closeEntry, hs]
      rw [h1]
      simp [connLookup, hs, ih]

/-- Helper: the closing map leaves other threads' entries unchanged. -/
theorem connLookup_map_other (t t' : Nat) (h : t' ≠ t) :
    ∀ cm : List (Nat × Bool),
      connLookup t' (cm.map (closeEntry t)) = connLookup t' cm := by
  intro cm
  induction cm with
  | nil => rfl
  | cons a rest ih =>
    rcases a with ⟨s, b⟩
    simp only [List.map_cons]
    by_cases hs : s = t
    · subst hs
      have h1 : closeEntry s (s, b) = (s, false) := by simp [closeEntry]
      rw [h1]
      have hst : ¬ s = t' := fun hh => h (hh.symm)
      simp [connLookup, hst, ih]
    · have h1 : closeEntry t (s, b) = (s, b) := by simp [closeEntry, hs]
      rw [h1]
      by_cases hs' : s = t'
      · simp [connLookup, hs']
      · simp [connLookup, hs', ih]

/-- Helper: after close_conn, the thread's own entry (if any) is closed. -/
theorem close_conn_lookup_self (t : Nat) (cm : List (Nat × Bool)) :
    connLookup t (close_conn t cm) = (connLookup t cm).map (fun _ => false) := by
  unfold close_conn
  cases h : connLookup t cm with
  | none => simp [h]
  | some b => simp [h, connLookup_map_close]

/-- Helper: close_conn does not touch other threads' entries. -/
theorem close_conn_lookup_other (t t' : Nat) (h : t' ≠ t)
    (cm : List (Nat × Bool)) :
    connLookup t' (close_conn t cm) = connLookup t' cm := by
  unfold close_conn
  cases hc : connLookup t cm with
  | none => rfl
  | some b => simpa using connLookup_map_other t t' h cm

/-- Helper: get_pets only touches the connection map through get_conn. -/
theorem get_pets_fst (f : Faults) (t : Nat) (cm : List (Nat × Bool))
    (db : DbState) (q : Option String) :
    (get_pets f t cm db q).1 = (get_conn f.connectFails t cm).1 := by
  rcases hg : get_conn f.connectFails t cm with ⟨cm1, conn⟩
  simp only [get_pets, hg]
  cases conn with
  | none => rfl
  | some b =>
    cases b with
    | false => rfl
    | true => split_ifs <;> rfl

/-- Helper: get_services only touches the connection map through get_conn. -/
theorem get_services_fst (f : Faults) (t : Nat) (cm : List (Nat × Bool))
    (db : DbState) (q : Option String) :
    (get_services f t cm db q).1 = (get_conn f.connectFails t cm).1 := by
  rcases hg : get_conn f.connectFails t cm with ⟨cm1, conn⟩
  simp only [get_services, hg]
  cases conn with
  | none => rfl
  | some b =>
    cases b with
    | false => rfl
    | true => split_ifs <;> rfl

/-- Helper: verify_user only touches the connection map through get_conn. -/
theorem verify_user_fst (f : Faults) (t : Nat) (cm : List (Nat × Bool))
    (db : DbState) (un pw : String) :
    (verify_user f t cm db un pw).1 = (get_conn f.connectFails t cm).1 := by
  rcases hg : get_conn f.connectFails t cm with ⟨cm1, conn⟩
  simp only [verify_user, hg]
  split <;> first | rfl | (split <;> rfl)

/-- Helper: exec_insert_user only touches the connection map through
get_conn. -/
theorem exec_insert_user_fst (f : Faults) (t : Nat) (cm : List (Nat × Bool))
    (db : DbState) (u e h : String) :
    (exec_insert_user f t cm db u e h).1 = (get_conn f.connectFails t cm).1 := by
  rcases hg : get_conn f.connectFails t cm with ⟨cm1, conn⟩
  simp only [exec_insert_user, hg]
  cases conn with
  | none => rfl
  | some b =>
    cases b with
    | false => rfl
    | true =>
      by_cases hq : f.queryFails = true
      · simp [hq]
      · simp only [hq, if_false, Bool.false_eq_true, ite_false]
        cases hi : insert_user_raw db u e h with
        | error err => simp [hi]
        | ok v =>
          rcases v with ⟨db', rid⟩
          simp [hi]

/-- Helper: add_user only touches the connection map through get_conn. -/
theorem add_user_fst (f : Faults) (t : Nat) (cm : List (Nat × Bool))
    (db : DbState) (u e p : String) :
    (add_user f t cm db u e p).1 = (get_conn f.connectFails t cm).1 := by
  rcases he : exec_insert_user f t cm db u e (argon2Hash p) with ⟨cm', rest⟩
  rcases rest with ⟨db', r⟩
  have h1 : cm' = (get_conn f.connectFails t cm).1 := by
    rw [← exec_insert_user_fst f t cm db u e (argon2Hash p), he]
  cases r with
  | ok v => simp [add_user, he, h1]
  | error err => cases err <;> simp [add_user, he, h1]

/-- Helper: the connection map after any DataWorker run is the map after
get_conn with the thread's connection closed by the `finally` clause, on
every exit path. -/
theorem dataWorkerRun_connMap (f : Faults) (t : Nat) (op : Operation)
    (a : RunArgs) (cm : List (Nat × Bool)) (db : DbState) :
    (dataWorkerRun f t op a cm db).1 =
      close_conn t (get_conn f.connectFails t cm).1 := by
  cases op with
  | get_pets =>
    rcases hg : get_pets f t cm db a.query with ⟨cm', rows⟩
    have h1 : cm' = (get_conn f.connectFails t cm).1 := by
      rw [← get_pets_fst f t cm db a.query, hg]
    simp [dataWorkerRun, hg, h1]
  | get_services =>
    rcases hg : get_services f t cm db a.query with ⟨cm', rows⟩
    have h1 : cm' = (get_conn f.connectFails t cm).1 := by
      rw [← get_services_fst f t cm db a.query, hg]
    simp [dataWorkerRun, hg, h1]
  | verify_user =>
    rcases hv : verify_user f t cm db a.username a.password with ⟨cm', r⟩
    have h1 : cm' = (get_conn f.connectFails t cm).1 := by
      rw [← verify_user_fst f t cm db a.username a.password, hv]
    cases r with
    | ok v => simp [dataWorkerRun, hv, Except.map, h1]
    | error e => simp [dataWorkerRun, hv, Except.map, h1]
  | add_user =>
    rcases ha : add_user f t cm db a.username a.email a.password with ⟨cm', rest⟩
    rcases rest with ⟨db', r⟩
    have h1 : cm' = (get_conn f.connectFails t cm).1 := by
      rw [← add_user_fst f t cm db a.username a.email a.password, ha]
    cases r with
    | ok v => simp [dataWorkerRun, ha, h1]
    | error e => simp [dataWorkerRun, ha, h1]

/-- C9: a DataWorker run on a fresh thread never leaves that thread's
connection open on any exit path (operation succeeding or raising, any
injected fault); when connecting succeeds, the run has obtained its own
thread-bound connection and closed it on completion; and the run never
touches any other thread's connection entry. -/
theorem c9_worker_connection_lifecycle :
    ∀ (f : Faults) (t : Nat) (op : Operation) (a : RunArgs)
      (cm : List (Nat × Bool)) (db : DbState),
      connLookup t cm = none →
      connLookup t (dataWorkerRun f t op a cm db).1 ≠ some true ∧
      (f.connectFails = false →
        connLookup t (dataWorkerRun f t op a cm db).1 = some false) ∧
      (∀ t', t' ≠ t →
        connLookup t' (dataWorkerRun f t op a cm db).1 = connLookup t' cm) := by
  intro f t op a cm db hfresh
  rw [dataWorkerRun_connMap]
  cases hcf : f.connectFails with
  | true =>
    have hA : (get_conn true t cm).1 = cm := by
      simp [get_conn, hfresh]
    rw [hA]
    refine ⟨?_, ?_, ?_⟩
    · rw [close_conn_lookup_self, hfresh]
      simp
    · intro h; exact Bool.noConfusion h
    · intro t' ht'
      exact close_conn_lookup_other t t' ht' cm
  | false =>
    have hA : (get_conn false t cm).1 = (t, true) :: cm := by
      simp [get_conn, hfresh]
    rw [hA]
    have hself : connLookup t (close_conn t ((t, true) :: cm)) = some false := by
      rw [close_conn_lookup_self]
      simp [connLookup]
    refine ⟨?_, fun _ => hself, ?_⟩
    · rw [hself]; simp
    · intro t' ht'
      rw [close_conn_lookup_other t t' ht']
      have hne : ¬ t = t' := fun hh => ht' hh.symm
      simp [connLookup, hne]

/-- C9 witness: a fresh thread 5 running verify_user against mallory's
malformed stored hash, exercising the exception exit path: the connection is
created, the run raises, and the connection is closed; thread 3 is
untouched. -/
theorem c9_worker_connection_witness :
    connLookup 5 (dataWorkerRun ⟨false, false⟩ 5 .verify_user argsMallory [] dbMallory).1 ≠
      some true ∧
    connLookup 5 (dataWorkerRun ⟨false, false⟩ 5 .verify_user argsMallory [] dbMallory).1 =
      some false ∧
    connLookup 3 (dataWorkerRun ⟨false, false⟩ 5 .verify_user argsMallory [] dbMallory).1 =
      connLookup 3 [] := by
  have h := c9_worker_connection_lifecycle ⟨false, false⟩ 5 .verify_user argsMallory
    [] dbMallory rfl
  exact ⟨h.1, h.2.1 rfl, h.2.2 3 (by decide)⟩

/-- C10: WishlistManager.load_wishlist returns the empty list both when the
guest wishlist file does not exist and when its contents are not valid JSON,
never raising in either case (the embedding is total), so both conditions
coincide with loading a valid empty wishlist at the public interface. -/
theorem c10_load_wishlist_missing_or_corrupt_empty :
    load_wishlist .missing = [] ∧
    load_wishlist .invalidJson = [] ∧
    load_wishlist .missing = load_wishlist (.valid []) ∧
    load_wishlist .invalidJson = load_wishlist (.valid []) := by
  exact ⟨rfl, rfl, rfl, rfl⟩

end OnlyPets
